import Mathlib

set_option maxRecDepth 8000

/-!
Verification development for the gap-analyzer worker.

Each definition is a shallow embedding of the corresponding Python
function from the repository (file and function named in the doc
comment).  External effects (HTTP calls, the LLM, the database, sleeps)
are abstracted as explicit parameters or recorded in the result, so the
control flow of the source can be replayed and reasoned about.
-/

namespace GapAnalyzer

/-! ## app/utils/helpers.py -/

/-- Model of the Python no-argument split: split on runs of whitespace,
dropping empty tokens.  Implemented on the character list so it reduces
in the kernel. -/
def pySplitAux : List Char → List Char → List String
  | [], [] => []
  | [], acc => [String.mk acc.reverse]
  | c :: cs, acc =>
    if c.isWhitespace then
      match acc with
      | [] => pySplitAux cs []
      | _ => String.mk acc.reverse :: pySplitAux cs []
    else
      pySplitAux cs (c :: acc)

/-- Model of `query.split()` in Python. -/
def pyWords (s : String) : List String :=
  pySplitAux s.toList []

/-- Model of the Python lower() (ASCII-relevant part, via `Char.toLower`). -/
def pyLower (s : String) : String :=
  String.mk (s.toList.map Char.toLower)

/-- The set of lowercased whitespace-split tokens of a text
(`set(text.lower().split())` in `calculate_similarity`). -/
def tokenSet (text : String) : Finset String :=
  (pyWords (pyLower text)).toFinset

/-- Model of `calculate_similarity` (helpers.py, lines 177-202): Jaccard similarity
of the sets of lowercased whitespace-split tokens; `0.0` when either text
is empty or the union of token sets is empty. -/
def calculate_similarity (text1 text2 : String) : ℚ :=
  if text1 = "" ∨ text2 = "" then 0
  else if tokenSet text1 ∪ tokenSet text2 = ∅ then 0
  else ((tokenSet text1 ∩ tokenSet text2).card : ℚ) /
       ((tokenSet text1 ∪ tokenSet text2).card : ℚ)

/-! ## app/schemas/gap_schemas.py -/

/-- Model of `PaperSearchResult` (gap_schemas.py). -/
structure PaperSearchResult where
  title : String
  abstract : Option String := none
  url : Option String := none
  pdf_url : Option String := none
  publication_date : Option String := none
  authors : List String := []
  venue : Option String := none
  deriving Repr, DecidableEq

/-- Model of `ExtractedContent` (gap_schemas.py). -/
structure ExtractedContent where
  title : String
  abstract : Option String := none
  sections : List (String × String) := []
  conclusion : Option String := none
  methods : Option String := none
  results : Option String := none
  extraction_success : Bool := true
  error : Option String := none
  deriving Repr, DecidableEq

/-- Model of `InitialGap` (gap_schemas.py). -/
structure InitialGap where
  name : String
  description : String
  category : String
  reasoning : String
  evidence : String
  deriving Repr, DecidableEq

/-- Model of `ValidationResult` (gap_schemas.py). -/
structure ValidationResult where
  is_valid : Bool
  confidence : ℚ
  reasoning : String
  should_modify : Bool
  modification_suggestion : Option String := none
  supporting_papers : List (String × String) := []
  conflicting_papers : List (String × String) := []
  deriving Repr, DecidableEq

/-! ## app/services/search_service.py -/

/-- Model of `_remove_duplicates` (search_service.py, lines 71-89): keep the first
result; a later result is dropped iff the title of some already-kept
result has Jaccard similarity strictly above `0.8` with its title. -/
def remove_duplicates : List PaperSearchResult → List PaperSearchResult
  | [] => []
  | first :: rest =>
    rest.foldl
      (fun unique_results result =>
        let is_duplicate :=
          unique_results.any
            (fun u => calculate_similarity result.title u.title > (8 : ℚ) / 10)
        if is_duplicate then unique_results else unique_results ++ [result])
      [first]

/-- The two-word fallback query: the first two whitespace tokens joined by a single space. -/
def firstTwoWords (query : String) : String :=
  " ".intercalate ((pyWords query).take 2)

/-- The single-word fallback query, index 0 of the word list (callers guard
`len(words) > 1`, so the list is nonempty there; `headD` mirrors the
indexed access totally). -/
def firstWord (query : String) : String :=
  (pyWords query).headD ""

/-- Model of `search_papers` (search_service.py, lines 30-69), with `_search_arxiv`
abstracted as `oracle : String → List PaperSearchResult` (it performs the
HTTP call; on any error it returns `[]`).  Returns the deduplicated,
truncated results together with the list of queries actually issued to
the search backend, in order. -/
def search_papers (oracle : String → List PaperSearchResult)
    (query : String) (max_results : Nat) :
    List PaperSearchResult × List String :=
  let results := oracle query
  let all_results := results
  let (all_results, trace) :=
    if all_results.length = 0 then
      let words := pyWords query
      let (all_results, trace) :=
        if words.length > 2 then
          let fallback_query := firstTwoWords query
          (all_results ++ oracle fallback_query, [fallback_query])
        else (all_results, [])
      if all_results.length = 0 ∧ words.length > 1 then
        let single_word_query := firstWord query
        (all_results ++ oracle single_word_query, trace ++ [single_word_query])
      else (all_results, trace)
    else (all_results, [])
  ((remove_duplicates all_results).take max_results, query :: trace)

/-! ## app/services/grobid_client.py -/

/-- Outcome of one `POST /api/processFulltextDocument` attempt, as seen by
`_extract_with_retry`: an HTTP status (with the parsed TEI content for
a 200) or a raised transport exception. -/
inductive GrobidResponse where
  | ok (content : ExtractedContent)
  | status (code : Nat)
  | exn (msg : String)
  deriving Repr, DecidableEq

/-- Observable effects of `_extract_with_retry`: the result, how many
POSTs were made, and the sleeps performed (seconds, in order). -/
structure ExtractRun where
  content : ExtractedContent
  posts : Nat
  sleeps : List Nat
  deriving Repr, DecidableEq

/-- The `for attempt in range(max_attempts)` loop body of
`_extract_with_retry` (grobid_client.py, lines 75-138).  `attempt` is the
current index, `fuel` the remaining iterations. -/
def extractLoop (responses : Nat → GrobidResponse) (max_attempts : Nat) :
    Nat → Nat → List Nat → ExtractRun
  | _, 0, sleeps =>
    -- loop exhausted: "All attempts failed"
    { content := { title := "", extraction_success := false,
                   error := some "GROBID extraction failed after all retry attempts" }
      posts := max_attempts, sleeps := sleeps }
  | attempt, fuel + 1, sleeps =>
    match responses attempt with
    | .ok content =>
      { content := content, posts := attempt + 1, sleeps := sleeps }
    | .status 503 =>
      if attempt < max_attempts - 1 then
        extractLoop responses max_attempts (attempt + 1) fuel
          (sleeps ++ [2 ^ attempt * 5])
      else
        -- last attempt: no sleep, loop ends
        { content := { title := "", extraction_success := false,
                       error := some "GROBID extraction failed after all retry attempts" }
          posts := attempt + 1, sleeps := sleeps }
    | .status 500 =>
      { content := { title := "", extraction_success := false,
                     error := some "GROBID internal server error - PDF may be corrupted or invalid" }
        posts := attempt + 1, sleeps := sleeps }
    | .status code =>
      { content := { title := "", extraction_success := false,
                     error := some ("GROBID error: " ++ toString code) }
        posts := attempt + 1, sleeps := sleeps }
    | .exn _ =>
      if attempt < max_attempts - 1 then
        extractLoop responses max_attempts (attempt + 1) fuel
          (sleeps ++ [2 ^ attempt * 2])
      else
        { content := { title := "", extraction_success := false,
                       error := some "GROBID extraction failed after all retry attempts" }
          posts := attempt + 1, sleeps := sleeps }

/-- Model of `_extract_with_retry` (grobid_client.py, lines 60-138).  PDF bytes are
modelled as a list of byte values; only the length is inspected by this
function.  Payloads under 1000 bytes are rejected before any POST. -/
def extract_with_retry (pdf_bytes : List Nat)
    (responses : Nat → GrobidResponse) (max_attempts : Nat := 3) : ExtractRun :=
  if pdf_bytes.length < 1000 then
    { content := { title := "", extraction_success := false,
                   error := some ("PDF too small (" ++ toString pdf_bytes.length ++
                     " bytes) - likely invalid or error page") }
      posts := 0, sleeps := [] }
  else
    extractLoop responses max_attempts 0 max_attempts []

/-! ## app/services/gemini_service.py -/

/-- Circuit-breaker states (`circuit_breaker_state` in `GeminiService`). -/
inductive CBState where
  | closed
  | opened
  | halfOpen
  deriving Repr, DecidableEq

/-- The circuit-breaker fields of `GeminiService.__init__` (threshold 3,
timeout 300s).  Time is modelled as natural-number seconds. -/
structure CircuitBreaker where
  failures : Nat := 0
  lastFailure : Nat := 0
  state : CBState := .closed
  deriving Repr, DecidableEq

/-- Model of `_check_circuit_breaker` (gemini_service.py, lines 37-51): returns
whether the request may proceed, together with the (possibly updated)
breaker — OPEN moves to HALF_OPEN once more than 300s have passed since
the last failure. -/
def check_circuit_breaker (cb : CircuitBreaker) (now : Nat) : Bool × CircuitBreaker :=
  match cb.state with
  | .closed => (true, cb)
  | .opened =>
    if now - cb.lastFailure > 300 then (true, { cb with state := .halfOpen })
    else (false, cb)
  | .halfOpen => (true, cb)

/-- Model of `_record_success` (gemini_service.py, lines 53-58). -/
def record_success (cb : CircuitBreaker) : CircuitBreaker :=
  if cb.state = .halfOpen then { cb with state := .closed, failures := 0 }
  else cb

/-- Model of `_record_failure` (gemini_service.py, lines 60-69). -/
def record_failure (cb : CircuitBreaker) (now : Nat) : CircuitBreaker :=
  let failures := cb.failures + 1
  if failures ≥ 3 then
    { failures := failures, lastFailure := now, state := .opened }
  else
    { cb with failures := failures, lastFailure := now }

/-- Observable effects of one LLM-client operation: its result, the number
of upstream `generate_content` invocations it made, and the number of
rate-limiter `wait_if_needed` waits it performed. -/
structure OpRun (α : Type) where
  result : α
  upstreamCalls : Nat
  limiterWaits : Nat
  deriving Repr, DecidableEq

/-- Outcome of one upstream attempt of `generate_initial_gaps`: a parsed
gap list (including the `[]` default of the tolerant parser on parse failure),
or a raised error, flagged as rate-limit (429/quota) or not. -/
inductive GenOutcome where
  | ok (gaps : List InitialGap)
  | err (rateLimit : Bool)
  deriving Repr, DecidableEq

/-- The `for attempt in range(max_attempts)` loop of
`generate_initial_gaps` (gemini_service.py, lines 93-170): each iteration
waits on the rate limiter, calls the upstream model, records
success/failure on the breaker, and retries (after a backoff) on error
until the attempts are exhausted, at which point `[]` is returned. -/
def genGapsLoop (outcomes : Nat → GenOutcome) (now : Nat) :
    Nat → Nat → CircuitBreaker → Nat → Nat →
    OpRun (List InitialGap) × CircuitBreaker
  | 0, _, cb, calls, waits => (⟨[], calls, waits⟩, cb)
  | fuel + 1, attempt, cb, calls, waits =>
    match outcomes attempt with
    | .ok gaps => (⟨gaps, calls + 1, waits + 1⟩, record_success cb)
    | .err _ =>
      let cb' := record_failure cb now
      if attempt < 3 - 1 then
        genGapsLoop outcomes now fuel (attempt + 1) cb' (calls + 1) (waits + 1)
      else
        (⟨[], calls + 1, waits + 1⟩, cb')

/-- Model of `generate_initial_gaps` (gemini_service.py, lines 82-170): checks the
circuit breaker first and returns `[]` without any upstream call when it
rejects; otherwise runs up to 3 attempts. -/
def generate_initial_gaps (cb : CircuitBreaker) (now : Nat)
    (outcomes : Nat → GenOutcome) : OpRun (List InitialGap) × CircuitBreaker :=
  match check_circuit_breaker cb now with
  | (false, cb') => (⟨[], 0, 0⟩, cb')
  | (true, cb') => genGapsLoop outcomes now 3 0 cb' 0 0

/-- Model of `generate_search_query` (gemini_service.py, lines 172-212): one
upstream call, no rate-limiter wait, no circuit-breaker check, no retry.
`outcome` is the stripped response text, or `none` when the call raised,
in which case the fallback is the first four words of
`(name + " " + category).lower()`. -/
def generate_search_query (gap : InitialGap) (outcome : Option String) :
    OpRun String :=
  match outcome with
  | some text => ⟨text, 1, 0⟩
  | none =>
    ⟨" ".intercalate ((pyWords (pyLower (gap.name ++ " " ++ gap.category))).take 4), 1, 0⟩

/-- Outcome of the upstream call inside `validate_gap`: a successfully
parsed `ValidationResult`, a rate-limit error (429/quota marker), or any
other error — including a response whose JSON could not be parsed into a
`ValidationResult`, which raises inside the `try` and lands in the
generic error branch. -/
inductive ValidateLLMOutcome where
  | ok (v : ValidationResult)
  | rateLimited
  | err
  deriving Repr, DecidableEq

/-- Model of `validate_gap` (gemini_service.py, lines 214-293): one rate-limiter
wait, one upstream call; every error path returns
`is_valid = true, confidence = 0.3` (no error ever yields an invalid
gap).  The `retry_async` decorator never re-runs it because the inner
`except` swallows every exception. -/
def gemini_validate_gap (outcome : ValidateLLMOutcome) : OpRun ValidationResult :=
  match outcome with
  | .ok v => ⟨v, 1, 1⟩
  | .rateLimited =>
    ⟨{ is_valid := true, confidence := (3 : ℚ) / 10,
       reasoning := "Rate limited - assuming valid with low confidence",
       should_modify := false }, 1, 1⟩
  | .err =>
    ⟨{ is_valid := true, confidence := (3 : ℚ) / 10,
       reasoning := "Could not validate due to error",
       should_modify := false }, 1, 1⟩

/-- The expansion payload consumed by `_process_single_gap`
(the parsed JSON dict of `expand_gap_details`, restricted to the keys the
pipeline reads). -/
structure ExpandedDetails where
  potential_impact : Option String := none
  research_hints : Option String := none
  implementation_suggestions : Option String := none
  risks_and_challenges : Option String := none
  required_resources : Option String := none
  estimated_difficulty : Option String := none
  estimated_timeline : Option String := none
  deriving Repr, DecidableEq

/-- Outcome of the upstream call inside `expand_gap_details`. -/
inductive ExpandOutcome where
  | ok (d : ExpandedDetails)
  | erred
  deriving Repr, DecidableEq

/-- The placeholder dict `expand_gap_details` returns on any error
(gemini_service.py, lines 358-367). -/
def expandPlaceholder : ExpandedDetails :=
  { potential_impact := some "Unable to generate impact analysis due to rate limiting"
    research_hints := some "Unable to generate hints due to rate limiting"
    implementation_suggestions := some "Unable to generate suggestions due to rate limiting"
    risks_and_challenges := some "Unable to identify risks due to rate limiting"
    required_resources := some "Unable to identify resources due to rate limiting"
    estimated_difficulty := some "unknown"
    estimated_timeline := some "unknown" }

/-- Model of `expand_gap_details` (gemini_service.py, lines 295-367): one
rate-limiter wait, one upstream call; on any error it returns the
placeholder details rather than raising. -/
def gemini_expand_gap_details (outcome : ExpandOutcome) : OpRun ExpandedDetails :=
  match outcome with
  | .ok d => ⟨d, 1, 1⟩
  | .erred => ⟨expandPlaceholder, 1, 1⟩

/-! ## app/services/gap_analysis_service.py -/

/-- Model of `GapAnalysisRequest` (gap_schemas.py). -/
structure GapAnalysisRequest where
  paperId : String
  paperExtractionId : String
  correlationId : String
  requestId : String
  config : Option String := none
  deriving Repr, DecidableEq

/-- One row of the `gap_analyses` table (`GapAnalysis` in gap_models.py),
restricted to the fields the pipeline reads or writes. -/
structure GapAnalysisRecord where
  id : String
  paper_id : String
  paper_extraction_id : String
  correlation_id : String
  request_id : String
  status : String
  started_at : Option Nat := none
  completed_at : Option Nat := none
  error_message : Option String := none
  config : Option String := none
  total_gaps_identified : Nat := 0
  valid_gaps_count : Nat := 0
  invalid_gaps_count : Nat := 0
  modified_gaps_count : Nat := 0
  deriving Repr, DecidableEq

/-- The dict `_process_single_gap` returns for a valid gap
(gap_analysis_service.py, lines 442-458). -/
structure GapData where
  gap_id : String
  name : String
  description : String
  category : String
  validation_status : String
  confidence_score : ℚ
  potential_impact : Option String := none
  research_hints : Option String := none
  implementation_suggestions : Option String := none
  risks_and_challenges : Option String := none
  required_resources : Option String := none
  estimated_difficulty : Option String := none
  estimated_timeline : Option String := none
  deriving Repr, DecidableEq

/-- Model of `GapDetail` (gap_schemas.py), restricted to the fields
`_prepare_response` fills from the gap dict. -/
structure GapDetail where
  gapId : String
  name : String
  description : String
  category : String
  validationStatus : String
  confidenceScore : ℚ
  potentialImpact : Option String := none
  researchHints : Option String := none
  implementationSuggestions : Option String := none
  risksAndChallenges : Option String := none
  requiredResources : Option String := none
  estimatedDifficulty : Option String := none
  estimatedTimeline : Option String := none
  supportingPapersCount : Nat := 0
  conflictingPapersCount : Nat := 0
  deriving Repr, DecidableEq

/-- Model of `GapAnalysisResponse` (gap_schemas.py).  `gaps` is optional with
default `None`, exactly as in the Pydantic model: the FAILED constructor
calls never pass it. -/
structure GapAnalysisResponse where
  requestId : String
  correlationId : String
  status : String
  message : String
  gapAnalysisId : Option String := none
  totalGaps : Nat := 0
  validGaps : Nat := 0
  gaps : Option (List GapDetail) := none
  error : Option String := none
  completedAt : Option Nat := none
  deriving Repr, DecidableEq

/-- The per-gap external world of `_process_single_gap`: the outcomes of
the search-query generation, the paper search (which can raise), the
GROBID batch extraction (which can raise), the LLM validation, and the
LLM expansion, plus the `uuid4()` drawn for the gap id.
`loopException` models an exception escaping `_process_single_gap`
that the `analyze_paper` loop catches (the gap is then dropped). -/
structure GapEnv where
  queryOutcome : Option String := none
  searchOutcome : Except String (List PaperSearchResult) := .ok []
  extractOutcome : Except String (List ExtractedContent) := .ok []
  validateOutcome : ValidateLLMOutcome := .err
  expandOutcome : ExpandOutcome := .erred
  uuid : String := ""
  loopException : Option String := none

/-- Model of `_validate_gap` (gap_analysis_service.py, lines 467-542): generate a
search query (never raises), search for related papers; an empty result
short-circuits to `is_valid=true, confidence=0.5` without calling the
LLM validator; extraction and validation follow; any raised error is
caught by the outer `except` and mapped to
`is_valid=true, confidence=0.3`.  The boolean records whether the LLM
validator (`gemini_service.validate_gap`) was invoked. -/
def service_validate_gap (e : GapEnv) (gap : InitialGap) :
    ValidationResult × Bool :=
  let _search_query := (generate_search_query gap e.queryOutcome).result
  match e.searchOutcome with
  | .error _ =>
    ({ is_valid := true, confidence := (3 : ℚ) / 10,
       reasoning := "Validation error - assumed valid", should_modify := false }, false)
  | .ok related_papers =>
    if related_papers.isEmpty then
      ({ is_valid := true, confidence := (5 : ℚ) / 10,
         reasoning := "No related papers found", should_modify := false }, false)
    else
      match e.extractOutcome with
      | .error _ =>
        ({ is_valid := true, confidence := (3 : ℚ) / 10,
           reasoning := "Validation error - assumed valid", should_modify := false }, false)
      | .ok _extracted_contents =>
        ((gemini_validate_gap e.validateOutcome).result, true)

/-- Model of `_expand_gap_details` (gap_analysis_service.py, lines 544-580): calls
the LLM expansion (which cannot raise — it returns the placeholder dict
on error) and forwards its fields. -/
def service_expand_gap_details (e : GapEnv) : ExpandedDetails :=
  (gemini_expand_gap_details e.expandOutcome).result

/-- Model of `_process_single_gap` (gap_analysis_service.py, lines 418-465):
validate; if valid, expand and return the gap dict (with
`confidence_score = float(confidence or 0.8)`, so a falsy `0.0`
becomes `0.8`); if invalid, return `None`. -/
def process_single_gap (e : GapEnv) (analysis_id : String)
    (gap : InitialGap) (index : Nat) : Option GapData :=
  let validation_result := (service_validate_gap e gap).1
  if validation_result.is_valid then
    let expanded := service_expand_gap_details e
    some
      { gap_id := analysis_id ++ "-" ++ toString index ++ "-" ++ e.uuid
        name := gap.name
        description := gap.description
        category := gap.category
        validation_status := "VALID"
        confidence_score :=
          if validation_result.confidence = 0 then (8 : ℚ) / 10
          else validation_result.confidence
        potential_impact := expanded.potential_impact
        research_hints := expanded.research_hints
        implementation_suggestions := expanded.implementation_suggestions
        risks_and_challenges := expanded.risks_and_challenges
        required_resources := expanded.required_resources
        estimated_difficulty := expanded.estimated_difficulty
        estimated_timeline := expanded.estimated_timeline }
  else
    none

/-- Model of `_update_analysis_summary` (gap_analysis_service.py, lines 582-596). -/
def update_analysis_summary (a : GapAnalysisRecord) (total_gaps valid_gaps : Nat)
    (now : Nat) : GapAnalysisRecord :=
  { a with
    total_gaps_identified := total_gaps
    valid_gaps_count := valid_gaps
    invalid_gaps_count := total_gaps - valid_gaps
    status := "COMPLETED"
    completed_at := some now }

/-- The `GapDetail` built for one gap dict in `_prepare_response`
(gap_analysis_service.py, lines 645-668). -/
def mk_gap_detail (g : GapData) : GapDetail :=
  { gapId := g.gap_id
    name := g.name
    description := g.description
    category := g.category
    validationStatus := g.validation_status
    confidenceScore := g.confidence_score
    potentialImpact := g.potential_impact
    researchHints := g.research_hints
    implementationSuggestions := g.implementation_suggestions
    risksAndChallenges := g.risks_and_challenges
    requiredResources := g.required_resources
    estimatedDifficulty := g.estimated_difficulty
    estimatedTimeline := g.estimated_timeline
    supportingPapersCount := 0
    conflictingPapersCount := 0 }

/-- Model of `_prepare_response` (gap_analysis_service.py, lines 637-680). -/
def prepare_response (analysis : GapAnalysisRecord)
    (valid_gap_data : List GapData) : GapAnalysisResponse :=
  { requestId := analysis.request_id
    correlationId := analysis.correlation_id
    status := "COMPLETED"
    message := "Successfully identified " ++ toString valid_gap_data.length ++
      " valid research gaps"
    gapAnalysisId := some analysis.id
    totalGaps := analysis.total_gaps_identified
    validGaps := analysis.valid_gaps_count
    gaps := some (valid_gap_data.map mk_gap_detail)
    completedAt := analysis.completed_at }

/-- The external world of one `analyze_paper` run: the analysis id the
upsert yields, the clock, a fatal exception (database or connectivity
failure caught by the top-level `except`), whether the paper row exists,
the initial gaps the LLM generation produced (it returns `[]` instead of
raising), and the per-gap worlds. -/
structure AnalyzeEnv where
  analysisId : String := "A"
  now : Nat := 0
  fatal : Option String := none
  paperFound : Bool := true
  initialGaps : List InitialGap := []
  perGap : Nat → GapEnv := fun _ => {}

/-- The record `_create_gap_analysis` hands back for a fresh request
(gap_analysis_service.py, lines 269-317); the table-level upsert
semantics are modelled separately by `upsert_analysis`. -/
def create_gap_analysis_record (env : AnalyzeEnv) (request : GapAnalysisRequest) :
    GapAnalysisRecord :=
  { id := env.analysisId
    paper_id := request.paperId
    paper_extraction_id := request.paperExtractionId
    correlation_id := request.correlationId
    request_id := request.requestId
    status := "PROCESSING"
    started_at := some env.now
    error_message := none
    config := request.config }

/-- The `for i, gap in enumerate(initial_gaps)` loop of `analyze_paper`
(gap_analysis_service.py, lines 112-126): one entry per initial gap,
`none` when processing dropped it (by its own `except` or by the loop). -/
def gapResults (env : AnalyzeEnv) : List (Option GapData) :=
  env.initialGaps.enum.map fun (i, gap) =>
    match (env.perGap i).loopException with
    | some _ => none
    | none => process_single_gap (env.perGap i) env.analysisId gap i

/-- Model of `analyze_paper` (gap_analysis_service.py, lines 52-187). -/
def analyze_paper (env : AnalyzeEnv) (request : GapAnalysisRequest) :
    GapAnalysisResponse :=
  match env.fatal with
  | some msg =>
    { requestId := request.requestId
      correlationId := request.correlationId
      status := "FAILED"
      message := "Analysis failed: " ++ msg
      error := some msg }
  | none =>
    if ¬ env.paperFound then
      { requestId := request.requestId
        correlationId := request.correlationId
        status := "FAILED"
        message := "Analysis failed: Paper not found"
        error := some "Paper not found" }
    else
      let analysis := create_gap_analysis_record env request
      if env.initialGaps.isEmpty then
        { requestId := request.requestId
          correlationId := request.correlationId
          status := "COMPLETED"
          message := "Analysis completed - no research gaps identified"
          gapAnalysisId := some analysis.id
          totalGaps := 0
          validGaps := 0
          gaps := some [] }
      else
        let valid_gap_data := (gapResults env).filterMap id
        let analysis :=
          update_analysis_summary analysis env.initialGaps.length
            valid_gap_data.length env.now
        prepare_response analysis valid_gap_data

/-! ## app/model/gap_models.py — `gap_analyses` schema and upsert -/

/-- A column declaration, with the constraint flags used by
`gap_models.py`. -/
structure ColumnDef where
  name : String
  primary_key : Bool := false
  unique : Bool := false
  nullable : Bool := true
  deriving Repr, DecidableEq

/-- The columns of `gap_analyses` (`GapAnalysis`, gap_models.py,
lines 32-67), with their `primary_key`/`unique`/`nullable` flags as
declared in the source. -/
def gap_analyses_columns : List ColumnDef :=
  [ { name := "id", primary_key := true, nullable := false }
  , { name := "paper_id", nullable := false }
  , { name := "paper_extraction_id", nullable := false }
  , { name := "correlation_id", unique := true, nullable := false }
  , { name := "request_id", unique := true, nullable := false }
  , { name := "status" }
  , { name := "started_at" }
  , { name := "completed_at" }
  , { name := "error_message" }
  , { name := "config" }
  , { name := "total_gaps_identified" }
  , { name := "valid_gaps_count" }
  , { name := "invalid_gaps_count" }
  , { name := "modified_gaps_count" } ]

/-- Model of the `INSERT … ON CONFLICT(correlation_id) DO UPDATE`
statement of `_create_gap_analysis` (gap_analysis_service.py,
lines 269-317), as a transformation of the `gap_analyses` table: when a
row with the correlation id of the request
correlation id exists it is updated in place (paper references, request
id and config refreshed, status reset to PROCESSING, `started_at`
refreshed, `error_message` cleared); otherwise a fresh row is inserted
with zeroed counters. -/
def upsert_analysis (table : List GapAnalysisRecord)
    (request : GapAnalysisRequest) (new_id : String) (now : Nat) :
    List GapAnalysisRecord :=
  if table.any (fun r => r.correlation_id = request.correlationId) then
    table.map fun r =>
      if r.correlation_id = request.correlationId then
        { r with
          paper_id := request.paperId
          paper_extraction_id := request.paperExtractionId
          request_id := request.requestId
          status := "PROCESSING"
          started_at := some now
          error_message := none
          config := request.config }
      else r
  else
    table ++
      [{ id := new_id
         paper_id := request.paperId
         paper_extraction_id := request.paperExtractionId
         correlation_id := request.correlationId
         request_id := request.requestId
         status := "PROCESSING"
         started_at := some now
         error_message := none
         config := request.config }]

/-! ## app/services/rabbitmq_service.py -/

/-- The Python substring test on strings, on character lists so it
reduces in the kernel. -/
def containsAux (needle : List Char) : List Char → Bool
  | [] => needle.isPrefixOf []
  | c :: cs => needle.isPrefixOf (c :: cs) || containsAux needle cs

/-- The Python substring test (needle in haystack). -/
def pyIn (needle haystack : String) : Bool :=
  containsAux needle.toList haystack.toList

/-- A message published to the response exchange: either a
`GapAnalysisResponse` serialized by `publish_response`, or the plain
error dict `_publish_error_response` sends when the request body was not
valid JSON (its `status` field is the literal `"FAILED"`). -/
inductive PublishedMessage where
  | response (r : GapAnalysisResponse)
  | errorDict (error : String) (original_message : String)
  deriving Repr, DecidableEq

/-- The `status` carried by a published message. -/
def publishedStatus : PublishedMessage → String
  | .response r => r.status
  | .errorDict _ _ => "FAILED"

/-- How the message body fares through `json.loads` +
`GapAnalysisRequest(**data)`: not JSON at all, JSON but not a valid
request (with whatever `requestId`/`correlationId` keys the JSON dict
carries, used best-effort by the generic error handler), or a valid
request. -/
inductive MessageParse where
  | invalidJson
  | badRequest (requestId correlationId : Option String)
  | request (req : GapAnalysisRequest)

/-- The external world of one `process_message` delivery: the decoded
body, its parse outcome, the pipeline world, an exception raised inside
the database-session block in place of a normal analyze/publish run, and
the row found by the duplicate-correlation-id lookup. -/
structure ConsumerEnv where
  body : String := ""
  parse : MessageParse := .invalidJson
  analyzeEnv : AnalyzeEnv := {}
  dbError : Option String := none
  existing : Option GapAnalysisRecord := none

/-- Observable outcome of one `process_message` delivery. -/
structure ConsumerRun where
  published : List PublishedMessage
  acked : Bool
  requeued : Bool
  dbInvoked : Bool
  deriving Repr, DecidableEq

/-- Python `s[:500]` (truncation in `_publish_error_response`). -/
def pyTake500 (s : String) : String := String.mk (s.toList.take 500)

/-- The FAILED response the generic `except` branch of `process_message`
builds (rabbitmq_service.py, lines 183-201). -/
def failed_processing_response (requestId correlationId : Option String)
    (errMsg : String) : GapAnalysisResponse :=
  { requestId := requestId.getD "unknown"
    correlationId := correlationId.getD "unknown"
    status := "FAILED"
    message := "Processing failed: " ++ errMsg
    error := some errMsg }

/-- The response the defensive duplicate-correlation-id branch publishes
(rabbitmq_service.py, lines 155-170) — note its status is `"SUCCESS"`. -/
def duplicate_response (req : GapAnalysisRequest) (existing : GapAnalysisRecord) :
    GapAnalysisResponse :=
  { requestId := req.requestId
    correlationId := req.correlationId
    status := "SUCCESS"
    message := "Analysis already exists (duplicate request handled)"
    gapAnalysisId := some existing.id
    totalGaps := existing.total_gaps_identified
    validGaps := existing.valid_gaps_count
    gaps := some [] }

/-- Model of `process_message` (rabbitmq_service.py, lines 112-206), run inside
`message.process(requeue=False)`:
* body not JSON → `_publish_error_response` (status FAILED, truncated
  original body), acknowledge; the database is never touched;
* JSON but not a valid request → the generic handler re-parses the JSON,
  publishes a FAILED response with best-effort ids, acknowledges;
* valid request → run `analyze_paper` and publish its response, unless
  the session block raised: a duplicate-correlation-id error with an
  existing row publishes a `"SUCCESS"` response; any other error (or a
  duplicate without a row) lands in the FAILED response of the generic
  handler.  All handled paths acknowledge; nothing is ever requeued. -/
def process_message (env : ConsumerEnv) : ConsumerRun :=
  match env.parse with
  | .invalidJson =>
    { published := [.errorDict "Invalid JSON" (pyTake500 env.body)]
      acked := true, requeued := false, dbInvoked := false }
  | .badRequest requestId correlationId =>
    { published := [.response (failed_processing_response requestId correlationId
        "request validation error")]
      acked := true, requeued := false, dbInvoked := false }
  | .request req =>
    match env.dbError with
    | none =>
      { published := [.response (analyze_paper env.analyzeEnv req)]
        acked := true, requeued := false, dbInvoked := true }
    | some msg =>
      if pyIn "duplicate key value violates unique constraint" msg ∧
          pyIn "correlation_id" msg then
        match env.existing with
        | some existing =>
          { published := [.response (duplicate_response req existing)]
            acked := true, requeued := false, dbInvoked := true }
        | none =>
          { published := [.response (failed_processing_response
              (some req.requestId) (some req.correlationId) msg)]
            acked := true, requeued := false, dbInvoked := true }
      else
        { published := [.response (failed_processing_response
            (some req.requestId) (some req.correlationId) msg)]
          acked := true, requeued := false, dbInvoked := true }

/-! ## Helper lemmas -/

/-- A list of options all of which are `some` loses nothing to
`filterMap id`. -/
lemma length_filterMap_id_of_isSome {α : Type} :
    ∀ (l : List (Option α)), (∀ x ∈ l, x.isSome = true) →
      (l.filterMap id).length = l.length := by
  intro l
  induction l with
  | nil => intro _; rfl
  | cons x xs ih =>
    intro h
    have hxs : ∀ y ∈ xs, y.isSome = true :=
      fun y hy => h y (List.mem_cons_of_mem _ hy)
    obtain ⟨a, rfl⟩ :=
      Option.isSome_iff_exists.mp (h x (List.mem_cons_self x xs))
    simp [List.filterMap_cons, ih hxs]

/-- Every `analyze_paper` response has status COMPLETED or FAILED. -/
lemma analyze_paper_status (env : AnalyzeEnv) (request : GapAnalysisRequest) :
    (analyze_paper env request).status = "COMPLETED" ∨
    (analyze_paper env request).status = "FAILED" := by
  unfold analyze_paper
  cases env.fatal with
  | some msg => right; rfl
  | none =>
    by_cases hp : env.paperFound
    · simp only [hp, not_true_eq_false, if_false]
      by_cases hg : env.initialGaps.isEmpty
      · simp [hg]
      · simp [hg, prepare_response]
    · simp [hp]

/-- Deduplication of a two-element list keeps the second element exactly
when the Jaccard similarity of its title with the first title is at most 0.8. -/
lemma remove_duplicates_pair (r1 r2 : PaperSearchResult) :
    remove_duplicates [r1, r2] =
      if calculate_similarity r2.title r1.title > (8 : ℚ) / 10 then [r1]
      else [r1, r2] := by
  simp only [remove_duplicates, List.foldl_cons, List.foldl_nil, List.any_cons,
    List.any_nil, Bool.or_false]
  by_cases h : calculate_similarity r2.title r1.title > (8 : ℚ) / 10
  · simp [h]
  · simp [h]

/-! ## C2 -/

/-- C2: every error path of gap validation — the rate-limit and generic
error branches of the LLM validator, and the pipeline-level catches
around the paper search and the content extraction — yields
`is_valid = true` with `confidence = 0.3`; no error ever marks a gap
invalid. -/
theorem spec_C2 :
    (∀ o : ValidateLLMOutcome, o = .rateLimited ∨ o = .err →
      (gemini_validate_gap o).result.is_valid = true ∧
      (gemini_validate_gap o).result.confidence = (3 : ℚ) / 10) ∧
    (∀ (e : GapEnv) (gap : InitialGap) (msg : String),
      e.searchOutcome = .error msg →
      service_validate_gap e gap =
        ({ is_valid := true
           confidence := (3 : ℚ) / 10
           reasoning := "Validation error - assumed valid"
           should_modify := false }, false)) ∧
    (∀ (e : GapEnv) (gap : InitialGap) (papers : List PaperSearchResult)
        (msg : String),
      e.searchOutcome = .ok papers → papers ≠ [] →
      e.extractOutcome = .error msg →
      service_validate_gap e gap =
        ({ is_valid := true
           confidence := (3 : ℚ) / 10
           reasoning := "Validation error - assumed valid"
           should_modify := false }, false)) := by
  refine ⟨?_, ?_, ?_⟩
  · rintro o (rfl | rfl) <;> exact ⟨rfl, rfl⟩
  · intro e gap msg h
    unfold service_validate_gap
    rw [h]
  · intro e gap papers msg hs hne hx
    unfold service_validate_gap
    rw [hs, hx]
    simp [List.isEmpty_iff, hne]

/-- Witness for C2 at the rate-limited outcome. -/
theorem spec_C2_witness :
    (gemini_validate_gap .rateLimited).result.is_valid = true ∧
    (gemini_validate_gap .rateLimited).result.confidence = (3 : ℚ) / 10 :=
  spec_C2.1 .rateLimited (Or.inl rfl)

/-! ## C6 -/

/-- C6: a PDF payload under 1000 bytes is rejected as a likely invalid
PDF or error page: the extraction endpoint receives zero POSTs and the
result is a failed extraction. -/
theorem spec_C6 (pdf_bytes : List Nat) (responses : Nat → GrobidResponse)
    (h : pdf_bytes.length < 1000) :
    extract_with_retry pdf_bytes responses =
      { content := { title := ""
                     extraction_success := false
                     error := some ("PDF too small (" ++
                       toString pdf_bytes.length ++
                       " bytes) - likely invalid or error page") }
        posts := 0
        sleeps := [] } := by
  unfold extract_with_retry
  rw [if_pos h]

/-- Witness for C6 on a 5-byte payload with an always-503 endpoint. -/
theorem spec_C6_witness :
    (List.replicate 5 (0 : Nat)).length < 1000 ∧
    extract_with_retry (List.replicate 5 (0 : Nat))
        (fun _ => GrobidResponse.status 503) =
      { content := { title := ""
                     extraction_success := false
                     error := some ("PDF too small (" ++
                       toString (List.replicate 5 (0 : Nat)).length ++
                       " bytes) - likely invalid or error page") }
        posts := 0
        sleeps := [] } :=
  ⟨by decide, spec_C6 _ _ (by decide)⟩

/-! ## C5 -/

/-- C5 counterexample: with a large-enough payload and an endpoint that
answers 503 on every attempt, the client makes 3 POSTs but sleeps only
5s and 10s — there is no 20-second sleep after the third attempt,
contrary to the claimed "sleeping … 20 seconds after the third". -/
theorem spec_C5_counterexample :
    (extract_with_retry (List.replicate 1000 (0 : Nat))
        (fun _ => GrobidResponse.status 503)).posts = 3 ∧
    (extract_with_retry (List.replicate 1000 (0 : Nat))
        (fun _ => GrobidResponse.status 503)).sleeps = [5, 10] ∧
    (extract_with_retry (List.replicate 1000 (0 : Nat))
        (fun _ => GrobidResponse.status 503)).sleeps ≠ [5, 10, 20] := by
  refine ⟨by decide, by decide, by decide⟩

/-- C5 amended: on an all-503 endpoint the client makes exactly 3 POST
attempts, sleeping 5 seconds after the first and 10 seconds after the
second; it does not sleep after the third, and returns a
failed-extraction result. -/
theorem spec_C5 (pdf_bytes : List Nat) (responses : Nat → GrobidResponse)
    (hlen : 1000 ≤ pdf_bytes.length)
    (h503 : ∀ i, responses i = GrobidResponse.status 503) :
    (extract_with_retry pdf_bytes responses).posts = 3 ∧
    (extract_with_retry pdf_bytes responses).sleeps = [5, 10] ∧
    (extract_with_retry pdf_bytes responses).content.extraction_success = false := by
  unfold extract_with_retry
  rw [if_neg (by omega)]
  simp [extractLoop, h503 0, h503 1, h503 2]

/-- Witness for C5 on a 1000-byte payload. -/
theorem spec_C5_witness :
    1000 ≤ (List.replicate 1000 (0 : Nat)).length ∧
    (extract_with_retry (List.replicate 1000 (0 : Nat))
        (fun _ => GrobidResponse.status 503)).posts = 3 ∧
    (extract_with_retry (List.replicate 1000 (0 : Nat))
        (fun _ => GrobidResponse.status 503)).sleeps = [5, 10] ∧
    (extract_with_retry (List.replicate 1000 (0 : Nat))
        (fun _ => GrobidResponse.status 503)).content.extraction_success = false :=
  ⟨by decide, spec_C5 _ _ (by decide) (fun _ => rfl)⟩

/-! ## C4 -/

/-- A short-title search result. -/
def dlPaper : PaperSearchResult := { title := "Deep Learning" }

/-- The same title with a trailing period. -/
def dlPaperDot : PaperSearchResult := { title := "Deep Learning." }

/-- The token sets of `"deep learning"` and `"deep learning."` share one
of three tokens. -/
lemma sim_dl :
    calculate_similarity dlPaperDot.title dlPaper.title = (1 : ℚ) / 3 := by
  have hne : ¬ (dlPaperDot.title = "" ∨ dlPaper.title = "") := by decide
  have hu : ¬ (tokenSet dlPaperDot.title ∪ tokenSet dlPaper.title = ∅) := by
    decide
  have hi : (tokenSet dlPaperDot.title ∩ tokenSet dlPaper.title).card = 1 := by
    decide
  have hc : (tokenSet dlPaperDot.title ∪ tokenSet dlPaper.title).card = 3 := by
    decide
  unfold calculate_similarity
  rw [if_neg hne, if_neg hu, hi, hc]
  norm_num

/-- C4 counterexample: `"Deep Learning"` and `"Deep Learning."` differ
only in trailing punctuation, yet their whitespace-token Jaccard
similarity is 1/3 ≤ 0.8, so deduplication keeps both results instead of
suppressing the later one. -/
theorem spec_C4_counterexample :
    dlPaperDot.title = dlPaper.title ++ "." ∧
    remove_duplicates [dlPaper, dlPaperDot] = [dlPaper, dlPaperDot] ∧
    remove_duplicates [dlPaper, dlPaperDot] ≠ [dlPaper] := by
  refine ⟨by decide, ?_, ?_⟩
  · rw [remove_duplicates_pair, sim_dl, if_neg (by norm_num)]
  · rw [remove_duplicates_pair, sim_dl, if_neg (by norm_num)]
    decide

/-- A ten-word title. -/
def longPaper : PaperSearchResult :=
  { title := "a1 b2 c3 d4 e5 f6 g7 h8 i9 j10" }

/-- The same ten-word title with a trailing period. -/
def longPaperDot : PaperSearchResult :=
  { title := "a1 b2 c3 d4 e5 f6 g7 h8 i9 j10." }

/-- C4 amended: for a later result, deduplication suppresses it exactly
when the Jaccard similarity of its title with a kept title strictly exceeds
0.8; for titles differing only in trailing punctuation that happens only
when enough tokens are shared (the punctuation makes the last tokens
differ), e.g. for 10-word titles (9/11 > 0.8) but not for 2-word titles
(1/3 ≤ 0.8). -/
theorem spec_C4 :
    (∀ r1 r2 : PaperSearchResult,
      remove_duplicates [r1, r2] =
        if calculate_similarity r2.title r1.title > (8 : ℚ) / 10 then [r1]
        else [r1, r2]) ∧
    longPaperDot.title = longPaper.title ++ "." ∧
    remove_duplicates [longPaper, longPaperDot] = [longPaper] := by
  refine ⟨remove_duplicates_pair, by decide, ?_⟩
  have hne : ¬ (longPaperDot.title = "" ∨ longPaper.title = "") := by decide
  have hu : ¬ (tokenSet longPaperDot.title ∪ tokenSet longPaper.title = ∅) := by
    decide
  have hi : (tokenSet longPaperDot.title ∩ tokenSet longPaper.title).card = 9 := by
    decide
  have hc : (tokenSet longPaperDot.title ∪ tokenSet longPaper.title).card = 11 := by
    decide
  have hsim :
      calculate_similarity longPaperDot.title longPaper.title = (9 : ℚ) / 11 := by
    unfold calculate_similarity
    rw [if_neg hne, if_neg hu, hi, hc]
    norm_num
  rw [remove_duplicates_pair, hsim, if_pos (by norm_num)]

/-! ## C3 -/

/-- C3 counterexample: the claim — after a zero-result original query
the search always retries with the first two words, then the first word
— fails for a one-word query: `search_papers` issues a single query and
never retries. -/
theorem spec_C3_counterexample :
    ¬ (∀ (oracle : String → List PaperSearchResult) (q : String) (n : Nat),
        oracle q = [] →
        (search_papers oracle q n).2 =
          q :: firstTwoWords q ::
            (if oracle (firstTwoWords q) = [] then [firstWord q] else [])) := by
  intro h
  have := h (fun _ => []) "alpha" 5 rfl
  revert this
  decide

/-- C3 amended: after a zero-result original query, the fallback with the
first two words is issued only when the query has more than two words,
and the single-word fallback only when the results are still empty and
the query has more than one word; the trace of issued queries is exactly
the original followed by whichever fallbacks fire. -/
theorem spec_C3 (oracle : String → List PaperSearchResult) (q : String)
    (n : Nat) (h : oracle q = []) :
    (search_papers oracle q n).2 =
      q :: ((if 2 < (pyWords q).length then [firstTwoWords q] else []) ++
        (if (if 2 < (pyWords q).length then oracle (firstTwoWords q)
             else []).length = 0 ∧ 1 < (pyWords q).length
         then [firstWord q] else [])) := by
  unfold search_papers
  rw [h]
  by_cases h2 : 2 < (pyWords q).length
  · by_cases hf : (oracle (firstTwoWords q)).length = 0
    · by_cases h1 : 1 < (pyWords q).length
      · simp [h2, hf, h1]
      · simp [h2, hf, h1]
    · simp [h2, hf]
  · by_cases h1 : 1 < (pyWords q).length
    · simp [h2, h1]
    · simp [h2, h1]

/-- Witness for C3 on a three-word query against an empty oracle: all
three degraded queries are issued. -/
theorem spec_C3_witness :
    (fun _ : String => ([] : List PaperSearchResult)) "a b c" = [] ∧
    (search_papers (fun _ => ([] : List PaperSearchResult)) "a b c" 5).2 =
      "a b c" :: ((if 2 < (pyWords "a b c").length
          then [firstTwoWords "a b c"] else []) ++
        (if (if 2 < (pyWords "a b c").length
              then (fun _ : String => ([] : List PaperSearchResult))
                (firstTwoWords "a b c")
              else []).length = 0 ∧ 1 < (pyWords "a b c").length
         then [firstWord "a b c"] else [])) :=
  ⟨rfl, spec_C3 (fun _ => []) "a b c" 5 rfl⟩

/-! ## C8 -/

/-- C8 counterexample: `correlation_id` is not the sole unique constraint
on `gap_analyses` besides the primary key — `request_id` is declared
`unique=True` as well. -/
theorem spec_C8_counterexample :
    ((gap_analyses_columns.filter fun c => c.unique && !c.primary_key).map
      (fun c => c.name)) = ["correlation_id", "request_id"] ∧
    (["correlation_id", "request_id"] : List String) ≠ ["correlation_id"] := by
  refine ⟨by decide, by decide⟩

/-- C8 amended: the unique non-primary-key columns of `gap_analyses` are
`correlation_id` and `request_id` (not `correlation_id` alone);
re-submitting a request whose correlation id already has a row never
creates a second row: the upsert keeps the length of the table and its count
of rows with that correlation id, and every such row ends up with status
PROCESSING and a cleared `error_message`. -/
theorem spec_C8 :
    ((gap_analyses_columns.filter fun c => c.unique && !c.primary_key).map
      (fun c => c.name)) = ["correlation_id", "request_id"] ∧
    (∀ (table : List GapAnalysisRecord) (req : GapAnalysisRequest)
        (new_id : String) (now : Nat),
      (∃ r ∈ table, r.correlation_id = req.correlationId) →
      (upsert_analysis table req new_id now).length = table.length ∧
      (upsert_analysis table req new_id now).countP
          (fun r => r.correlation_id = req.correlationId) =
        table.countP (fun r => r.correlation_id = req.correlationId) ∧
      (∀ r ∈ upsert_analysis table req new_id now,
        r.correlation_id = req.correlationId →
        r.status = "PROCESSING" ∧ r.error_message = none)) := by
  refine ⟨by decide, ?_⟩
  intro table req new_id now hex
  have hany : table.any (fun r => r.correlation_id = req.correlationId) = true := by
    rw [List.any_eq_true]
    obtain ⟨r, hr, hc⟩ := hex
    exact ⟨r, hr, decide_eq_true hc⟩
  unfold upsert_analysis
  rw [if_pos hany]
  refine ⟨List.length_map _ _, ?_, ?_⟩
  · rw [List.countP_map]
    apply List.countP_congr
    intro r _
    by_cases hc : r.correlation_id = req.correlationId <;>
      simp [Function.comp, hc]
  · intro r hr hc
    obtain ⟨r0, _, rfl⟩ := List.mem_map.mp hr
    by_cases hc0 : r0.correlation_id = req.correlationId
    · simp only [hc0, if_pos rfl]
      exact ⟨rfl, rfl⟩
    · rw [if_neg hc0] at hc ⊢
      exact absurd hc hc0

/-- Witness for C8 on a one-row table hit by a matching re-submission. -/
theorem spec_C8_witness :
    (∃ r ∈ [({ id := "A0", paper_id := "p", paper_extraction_id := "e"
               correlation_id := "corr-1", request_id := "r0"
               status := "FAILED", error_message := some "boom" } :
        GapAnalysisRecord)], r.correlation_id = "corr-1") ∧
    (upsert_analysis
        [{ id := "A0", paper_id := "p", paper_extraction_id := "e"
           correlation_id := "corr-1", request_id := "r0"
           status := "FAILED", error_message := some "boom" }]
        { paperId := "p", paperExtractionId := "e"
          correlationId := "corr-1", requestId := "r1" } "A1" 7).length = 1 :=
  ⟨⟨_, List.mem_singleton.mpr rfl, rfl⟩,
    (spec_C8.2 _ { paperId := "p", paperExtractionId := "e"
                   correlationId := "corr-1", requestId := "r1" } "A1" 7
      ⟨_, List.mem_singleton.mpr rfl, rfl⟩).1⟩

/-! ## C7 -/

/-- A breaker that opened at time 0 after 3 failures. -/
def cbOpenEx : CircuitBreaker :=
  { failures := 3, lastFailure := 0, state := .opened }

/-- A sample gap. -/
def gapEx : InitialGap :=
  { name := "Gap", description := "d", category := "empirical"
    reasoning := "r", evidence := "e" }

/-- C7 counterexample: with the breaker OPEN and the cooldown not yet
elapsed, `generate_search_query` still makes its upstream call (the
source never consults the breaker there), refuting "no LLM operation
invokes the upstream model". -/
theorem spec_C7_counterexample :
    ¬ (∀ (cb : CircuitBreaker) (now : Nat), cb.state = .opened →
        now - cb.lastFailure ≤ 300 →
        ∀ (gap : InitialGap) (o : Option String),
          (generate_search_query gap o).upstreamCalls = 0) := by
  intro h
  exact absurd (h cbOpenEx 100 rfl (by decide) gapEx (some "quantum computing"))
    (by decide)

/-- C7 amended: only `generate_initial_gaps` is guarded by the circuit
breaker — while the breaker is OPEN within its cooldown it returns `[]`
with no upstream call and no rate-limiter wait; `generate_search_query`
always calls the upstream with neither breaker nor limiter nor retry;
`validate_gap` and `expand_gap_details` wait on the rate limiter but
likewise call the upstream regardless of the breaker. -/
theorem spec_C7 (cb : CircuitBreaker) (now : Nat)
    (hst : cb.state = .opened) (helapsed : now - cb.lastFailure ≤ 300) :
    (∀ outcomes : Nat → GenOutcome,
      generate_initial_gaps cb now outcomes = (⟨[], 0, 0⟩, cb)) ∧
    (∀ (gap : InitialGap) (o : Option String),
      (generate_search_query gap o).upstreamCalls = 1 ∧
      (generate_search_query gap o).limiterWaits = 0) ∧
    (∀ vo : ValidateLLMOutcome,
      (gemini_validate_gap vo).upstreamCalls = 1 ∧
      (gemini_validate_gap vo).limiterWaits = 1) ∧
    (∀ eo : ExpandOutcome,
      (gemini_expand_gap_details eo).upstreamCalls = 1 ∧
      (gemini_expand_gap_details eo).limiterWaits = 1) := by
  have hng : ¬ (300 < now - cb.lastFailure) := Nat.not_lt.mpr helapsed
  refine ⟨?_, ?_, ?_, ?_⟩
  · intro outcomes
    simp [generate_initial_gaps, check_circuit_breaker, hst, hng]
  · intro gap o; cases o <;> exact ⟨rfl, rfl⟩
  · intro vo; cases vo <;> exact ⟨rfl, rfl⟩
  · intro eo; cases eo <;> exact ⟨rfl, rfl⟩

/-- Witness for C7 at time 100 on the breaker opened at time 0. -/
theorem spec_C7_witness :
    cbOpenEx.state = CBState.opened ∧
    100 - cbOpenEx.lastFailure ≤ 300 ∧
    generate_initial_gaps cbOpenEx 100 (fun _ => .err false) =
      (⟨[], 0, 0⟩, cbOpenEx) ∧
    (generate_search_query gapEx (some "quantum computing")).upstreamCalls = 1 :=
  ⟨rfl, by decide,
    (spec_C7 cbOpenEx 100 rfl (by decide)).1 _,
    ((spec_C7 cbOpenEx 100 rfl (by decide)).2.1 gapEx (some "quantum computing")).1⟩

/-! ## C1 -/

/-- C1: whenever `analyze_paper` returns a COMPLETED response, its
`totalGaps` equals the number of initial gaps the generation step
produced, its `validGaps` equals both the length of the gaps array of
the response and the number of gaps whose processing returned a result,
and `validGaps ≤ totalGaps`. -/
theorem spec_C1 (env : AnalyzeEnv) (request : GapAnalysisRequest)
    (h : (analyze_paper env request).status = "COMPLETED") :
    (analyze_paper env request).totalGaps = env.initialGaps.length ∧
    (analyze_paper env request).validGaps =
      ((analyze_paper env request).gaps.getD []).length ∧
    (analyze_paper env request).validGaps =
      ((gapResults env).filterMap id).length ∧
    (analyze_paper env request).validGaps ≤
      (analyze_paper env request).totalGaps := by
  obtain ⟨aid, now, fatal, paperFound, initialGaps, perGap⟩ := env
  unfold analyze_paper at h ⊢
  cases fatal with
  | some msg => exact absurd h (by simp)
  | none =>
    cases paperFound with
    | false => exact absurd h (by simp)
    | true =>
      by_cases hg : initialGaps.isEmpty
      · have hnil : initialGaps = [] := List.isEmpty_iff.mp hg
        subst hnil
        simp [gapResults]
      · simp only [not_true_eq_false, if_false, hg]
        refine ⟨rfl, ?_, rfl, ?_⟩
        · simp [prepare_response, update_analysis_summary]
        · simp only [prepare_response, update_analysis_summary]
          calc ((gapResults ⟨aid, now, none, true, initialGaps, perGap⟩).filterMap
                id).length
              ≤ (gapResults ⟨aid, now, none, true, initialGaps, perGap⟩).length :=
                List.length_filterMap_le _ _
            _ = initialGaps.length := by
                simp [gapResults, List.enum_length]

/-- Witness for C1 on the zero-gap run (the generation step returned no
gaps, the analysis completes with an empty gap list). -/
theorem spec_C1_witness :
    (analyze_paper {} { paperId := "p", paperExtractionId := "e"
                        correlationId := "c", requestId := "r" }).status =
      "COMPLETED" ∧
    (analyze_paper {} { paperId := "p", paperExtractionId := "e"
                        correlationId := "c", requestId := "r" }).totalGaps =
      (AnalyzeEnv.initialGaps {}).length ∧
    (analyze_paper {} { paperId := "p", paperExtractionId := "e"
                        correlationId := "c", requestId := "r" }).validGaps ≤
    (analyze_paper {} { paperId := "p", paperExtractionId := "e"
                        correlationId := "c", requestId := "r" }).totalGaps :=
  ⟨rfl, (spec_C1 {} _ rfl).1, (spec_C1 {} _ rfl).2.2.2⟩

/-! ## C10 -/

/-- A zero-result search short-circuits validation to
`is_valid=true, confidence=0.5` with no LLM-validator call. -/
lemma validate_gap_no_papers (e : GapEnv) (gap : InitialGap)
    (h : e.searchOutcome = .ok []) :
    service_validate_gap e gap =
      ({ is_valid := true
         confidence := (5 : ℚ) / 10
         reasoning := "No related papers found"
         should_modify := false }, false) := by
  unfold service_validate_gap
  rw [h]
  rfl

/-- A gap whose search found no papers is never dropped by
`_process_single_gap`. -/
lemma process_single_gap_no_papers (e : GapEnv) (aid : String)
    (gap : InitialGap) (idx : Nat) (h : e.searchOutcome = .ok []) :
    (process_single_gap e aid gap idx).isSome = true := by
  unfold process_single_gap
  rw [validate_gap_no_papers e gap h]
  rfl

/-- When the search of every gap returns no papers, the analysis completes
with every initial gap accepted. -/
lemma analyze_paper_all_accepted (env : AnalyzeEnv) (req : GapAnalysisRequest)
    (hf : env.fatal = none) (hp : env.paperFound = true)
    (hgaps : ∀ i, (env.perGap i).loopException = none ∧
      (env.perGap i).searchOutcome = .ok []) :
    (analyze_paper env req).status = "COMPLETED" ∧
    (analyze_paper env req).validGaps = env.initialGaps.length := by
  have hall : ∀ x ∈ gapResults env, x.isSome = true := by
    intro x hx
    simp only [gapResults, List.mem_map] at hx
    obtain ⟨⟨i, gap⟩, _, rfl⟩ := hx
    rw [(hgaps i).1]
    exact process_single_gap_no_papers _ _ _ _ (hgaps i).2
  have hlen : ((gapResults env).filterMap id).length = env.initialGaps.length := by
    rw [length_filterMap_id_of_isSome _ hall]
    simp [gapResults, List.enum_length]
  unfold analyze_paper
  rw [hf]
  by_cases hg : env.initialGaps.isEmpty
  · have hnil : env.initialGaps = [] := List.isEmpty_iff.mp hg
    simp [hp, hg, hnil]
  · simp [hp, hg, prepare_response, update_analysis_summary, hlen]

/-- C10: when the generated query finds zero related papers, validation
short-circuits to `is_valid=true, confidence=0.5` without invoking the
LLM validator, the gap is kept, and — when this happens for every gap —
the gaps array of the COMPLETED response contains every initial gap. -/
theorem spec_C10 :
    (∀ (e : GapEnv) (gap : InitialGap), e.searchOutcome = .ok [] →
      service_validate_gap e gap =
        ({ is_valid := true
           confidence := (5 : ℚ) / 10
           reasoning := "No related papers found"
           should_modify := false }, false)) ∧
    (∀ (e : GapEnv) (aid : String) (gap : InitialGap) (idx : Nat),
      e.searchOutcome = .ok [] →
      (process_single_gap e aid gap idx).isSome = true) ∧
    (∀ (env : AnalyzeEnv) (req : GapAnalysisRequest),
      env.fatal = none → env.paperFound = true →
      (∀ i, (env.perGap i).loopException = none ∧
        (env.perGap i).searchOutcome = .ok []) →
      (analyze_paper env req).status = "COMPLETED" ∧
      (analyze_paper env req).validGaps = env.initialGaps.length) :=
  ⟨validate_gap_no_papers, process_single_gap_no_papers,
   analyze_paper_all_accepted⟩

/-- A sample gap for the C10 witness. -/
def gapExC10 : InitialGap :=
  { name := "G", description := "d", category := "empirical"
    reasoning := "r", evidence := "e" }

/-- A one-gap pipeline world whose searches all come back empty. -/
def envC10 : AnalyzeEnv :=
  { initialGaps := [gapExC10]
    perGap := fun _ => { searchOutcome := .ok [] } }

/-- The C10 witness request. -/
def reqC10 : GapAnalysisRequest :=
  { paperId := "p", paperExtractionId := "e"
    correlationId := "c", requestId := "r" }

/-- Witness for C10 on a single-gap analysis with empty search results. -/
theorem spec_C10_witness :
    (envC10.perGap 0).searchOutcome = Except.ok [] ∧
    (analyze_paper envC10 reqC10).status = "COMPLETED" ∧
    (analyze_paper envC10 reqC10).validGaps = envC10.initialGaps.length :=
  ⟨rfl, (spec_C10.2.2 envC10 reqC10 rfl rfl fun _ => ⟨rfl, rfl⟩).1,
    (spec_C10.2.2 envC10 reqC10 rfl rfl fun _ => ⟨rfl, rfl⟩).2⟩

/-! ## C9 -/

/-- A duplicate-correlation-id database error message. -/
def dupMsgEx : String :=
  "duplicate key value violates unique constraint correlation_id"

/-- The C9 request. -/
def reqEx : GapAnalysisRequest :=
  { paperId := "p", paperExtractionId := "e"
    correlationId := "corr-1", requestId := "r1" }

/-- The pre-existing analysis row the duplicate branch loads. -/
def existingEx : GapAnalysisRecord :=
  { id := "A0", paper_id := "p", paper_extraction_id := "e"
    correlation_id := "corr-1", request_id := "r1"
    status := "COMPLETED", total_gaps_identified := 3, valid_gaps_count := 2 }

/-- A delivery whose database session raises a duplicate-correlation-id
error while the row already exists. -/
def envDup : ConsumerEnv :=
  { body := "{}", parse := .request reqEx
    dbError := some dupMsgEx, existing := some existingEx }

/-- C9 counterexample: the defensive duplicate-correlation-id branch
publishes a response with status `"SUCCESS"`, which is neither
`"COMPLETED"` nor `"FAILED"`. -/
theorem spec_C9_counterexample :
    ¬ (∀ (env : ConsumerEnv) (p : PublishedMessage),
        p ∈ (process_message env).published →
        publishedStatus p = "COMPLETED" ∨ publishedStatus p = "FAILED") := by
  intro h
  rcases h envDup (.response (duplicate_response reqEx existingEx))
      (by decide) with h1 | h1 <;>
    exact absurd h1 (by decide)

/-- C9 amended: every published response carries status COMPLETED,
FAILED, or SUCCESS (SUCCESS arising only from the defensive
duplicate-correlation-id branch); nothing is ever requeued; and for a
body that is not valid JSON the consumer publishes exactly one FAILED
error dict (with the truncated original body and no identifiers),
acknowledges, and never touches the database. -/
theorem spec_C9 (env : ConsumerEnv) :
    (∀ p ∈ (process_message env).published,
      publishedStatus p = "COMPLETED" ∨ publishedStatus p = "FAILED" ∨
      publishedStatus p = "SUCCESS") ∧
    (process_message env).requeued = false ∧
    (process_message env).acked = true ∧
    (env.parse = .invalidJson →
      (process_message env).published =
        [.errorDict "Invalid JSON" (pyTake500 env.body)] ∧
      (process_message env).published.map publishedStatus = ["FAILED"] ∧
      (process_message env).dbInvoked = false) := by
  obtain ⟨body, parse, aenv, dbError, existing⟩ := env
  refine ⟨?_, ?_, ?_, ?_⟩
  · intro p hp
    rcases parse with _ | ⟨r, c⟩ | req
    · simp only [process_message, List.mem_singleton] at hp
      subst hp
      right; left; rfl
    · simp only [process_message, List.mem_singleton] at hp
      subst hp
      right; left; rfl
    · rcases dbError with _ | msg
      · simp only [process_message, List.mem_singleton] at hp
        subst hp
        rcases analyze_paper_status aenv req with hc | hc
        · left; exact hc
        · right; left; exact hc
      · simp only [process_message] at hp
        rcases existing with _ | e
        · split at hp <;>
            (rw [List.mem_singleton] at hp; subst hp; right; left; rfl)
        · split at hp
          · rw [List.mem_singleton] at hp; subst hp; right; right; rfl
          · rw [List.mem_singleton] at hp; subst hp; right; left; rfl
  · rcases parse with _ | ⟨r, c⟩ | req <;> try rfl
    rcases dbError with _ | msg
    · rfl
    · simp only [process_message]
      split
      · rcases existing with _ | e <;> rfl
      · rfl
  · rcases parse with _ | ⟨r, c⟩ | req <;> try rfl
    rcases dbError with _ | msg
    · rfl
    · simp only [process_message]
      split
      · rcases existing with _ | e <;> rfl
      · rfl
  · intro hjson
    cases hjson
    exact ⟨rfl, rfl, rfl⟩

/-- Witness for C9 on a non-JSON body. -/
theorem spec_C9_witness :
    (process_message { body := "not json", parse := .invalidJson }).requeued =
      false ∧
    (process_message { body := "not json", parse := .invalidJson }).published.map
      publishedStatus = ["FAILED"] ∧
    (process_message { body := "not json", parse := .invalidJson }).dbInvoked =
      false :=
  ⟨(spec_C9 { body := "not json", parse := .invalidJson }).2.1,
   ((spec_C9 { body := "not json", parse := .invalidJson }).2.2.2 rfl).2.1,
   ((spec_C9 { body := "not json", parse := .invalidJson }).2.2.2 rfl).2.2⟩

end GapAnalyzer
